import Mathlib

/-!
Verification of the experiment entry point of the LLM vulnerability tester
(`src/main.py`) and of the metric evaluators it drives.

The entry point `main` is embedded shallowly: the collaborators whose code
lives outside `src/` (ExperimentBuilder, LatencyEvaluator, StorageManager)
are passed in as abstract parameters, and the two latency calls are recorded
in an explicit call trace so that statements about *how* they are invoked can
be made.  The metric evaluators (`calculate_accuracy`, `calculate_asr`) are
modelled from the specification, since `metrics/accuracy.py` and
`metrics/robustness.py` are not part of the sources at hand.
-/

namespace LLMVuln

/-- An `Example` of the data model: a labelled text, optionally annotated by an
attack with a perturbed label (`perturbed_label` is `none` when the attack left
no such key on the dictionary). -/
structure Example (α : Type) where
  text : String
  label : α
  perturbed_label : Option α
deriving Repr, DecidableEq

/-- The CLI arguments received by `main` after parsing (`args` in
`src/main.py`): `--model`, `--dataset`, `--attack`, `--quantization`
(optional, default `None`), `--num_samples` (an `int`, default 50). -/
structure Args where
  model : String
  dataset : String
  attack : String
  quantization : Option String
  num_samples : Int
deriving Repr, DecidableEq

/-- The dictionary returned by `ExperimentBuilder.run_experiment`: a `status`
string, and the `adversarial_data` key, present iff the run succeeded
(modelled as an `Option`). -/
structure ExperimentResult (α : Type) where
  status : String
  adversarial_data : Option (List (Example α))

/-- The `ExperimentBuilder` object as the entry point sees it after
`run_experiment`: it holds the loaded `model` and `tokenizer` handles and the
result dictionary. -/
structure Experiment (M T α : Type) where
  model : M
  tokenizer : T
  result : ExperimentResult α

/-- One call to `LatencyEvaluator.measure_latency`: the argument triple
(model handle, list of texts, tokenizer handle) it receives. -/
structure LatCall (M T : Type) where
  model : M
  texts : List String
  tokenizer : T
deriving DecidableEq

/-- The `final_results` dictionary built in `src/main.py` lines 55-66: its ten
keys, in source order. -/
structure MetricsRecord where
  model : String
  quantization : Option String
  attack : String
  accuracy_before : ℚ
  accuracy_after : ℚ
  accuracy_drop : ℚ
  attack_success_rate : ℚ
  latency_before_ms : ℚ
  latency_after_ms : ℚ
  latency_increase_ms : ℚ
deriving Repr, DecidableEq

/-- Python's `round(x, 2)`: rounding to two decimal places.  (Python rounds
ties to even; no claim about this code depends on the tie-breaking rule, and
`round2` is used consistently wherever the source calls `round(_, 2)`.) -/
def round2 (q : ℚ) : ℚ := (round (q * 100) : ℤ) / 100

variable {α M T : Type} [DecidableEq α]

/-- Modelled from the spec: `AccuracyEvaluator.calculate_accuracy` lives in
`metrics/accuracy.py`, which is not among the sources; per §4.3 it is the
count of positional matches divided by the length, with zero-length input
yielding the defined value 0.0 rather than a division fault. -/
def calculate_accuracy (reference predicted : List α) : ℚ :=
  if reference.length = 0 then 0
  else (((reference.zip predicted).countP fun p => decide (p.1 = p.2) : ℕ) : ℚ) /
    (reference.length : ℚ)

/-- Modelled from the spec: `AttackSuccessRate.calculate_asr` lives in
`metrics/robustness.py`, which is not among the sources; per §4.4 it is the
fraction of positions where the perturbed label differs from the original,
with the same zero-length contract as `calculate_accuracy`. -/
def calculate_asr (original perturbed : List α) : ℚ :=
  if original.length = 0 then 0
  else (((original.zip perturbed).countP fun p => decide (p.1 ≠ p.2) : ℕ) : ℚ) /
    (original.length : ℚ)

/-- `original_labels = [d["label"] for d in adversarial_data]`
(`src/main.py` line 44). -/
def original_labels (data : List (Example α)) : List α :=
  data.map fun d => d.label

/-- `perturbed_labels = [d.get("perturbed_label", d["label"]) for d in
adversarial_data]` (`src/main.py` line 45): an example lacking the
`perturbed_label` key contributes its own `label`. -/
def perturbed_labels (data : List (Example α)) : List α :=
  data.map fun d => d.perturbed_label.getD d.label

/-- `[d["text"] for d in adversarial_data]`, the text batch handed to both
latency measurements (`src/main.py` lines 52-53). -/
def batch_texts (data : List (Example α)) : List String :=
  data.map fun d => d.text

/-- The entry point `main` of `src/main.py`, lines 33-70.  `builder` abstracts
`ExperimentBuilder(...)` followed by `run_experiment()`; `lat` abstracts
`LatencyEvaluator.measure_latency` as an oracle indexed by call number (wall
clock time may differ between the two calls) and by the argument triple.
Returns the record handed to `StorageManager` (`none` when the failure branch
logs and returns, persisting nothing) together with the trace of
`measure_latency` calls made. -/
def main (builder : String → String → String → Option String → Experiment M T α)
    (lat : Nat → LatCall M T → ℚ) (args : Args) :
    Option MetricsRecord × List (LatCall M T) :=
  let experiment := builder args.model args.dataset args.attack args.quantization
  let results := experiment.result
  if results.status ≠ "success" then (none, [])
  else
    match results.adversarial_data with
    | none => (none, [])
    | some adversarial_data =>
      let accuracy_before :=
        calculate_accuracy (original_labels adversarial_data) (original_labels adversarial_data)
      let accuracy_after :=
        calculate_accuracy (original_labels adversarial_data) (perturbed_labels adversarial_data)
      let asr :=
        calculate_asr (original_labels adversarial_data) (perturbed_labels adversarial_data)
      let call0 : LatCall M T :=
        ⟨experiment.model, batch_texts adversarial_data, experiment.tokenizer⟩
      let call1 : LatCall M T :=
        ⟨experiment.model, batch_texts adversarial_data, experiment.tokenizer⟩
      let latency_before := lat 0 call0
      let latency_after := lat 1 call1
      (some
        { model := args.model
          quantization := args.quantization
          attack := args.attack
          accuracy_before := accuracy_before
          accuracy_after := accuracy_after
          accuracy_drop := round2 (accuracy_before - accuracy_after)
          attack_success_rate := asr
          latency_before_ms := latency_before
          latency_after_ms := latency_after
          latency_increase_ms := round2 (latency_after - latency_before) },
       [call0, call1])

/-- Sanity check against the spec's worked scenario: accuracy of
R = [0,1,1,0] against P = [0,1,0,0] is 0.75. -/
theorem scenario_accuracy_check : calculate_accuracy [0, 1, 1, 0] [0, 1, 0, 0] = 3 / 4 := by
  norm_num [calculate_accuracy, List.countP, List.countP.go]

/-- Sanity check against the spec's worked scenario: ASR of R = [0,1,1,0]
against P = [0,1,0,0] is 0.25. -/
theorem scenario_asr_check : calculate_asr [0, 1, 1, 0] [0, 1, 0, 0] = 1 / 4 := by
  norm_num [calculate_asr, List.countP, List.countP.go]

/-- Zipping a list with itself pairs every element with itself. -/
theorem zip_self_eq_map (l : List α) : l.zip l = l.map fun a => (a, a) := by
  induction l with
  | nil => rfl
  | cons a t ih => simp [List.zip_cons_cons, ih]

/-- Comparing a label sequence with itself yields accuracy 1 (the
`accuracy_before` sanity baseline), provided the sequence is nonempty. -/
theorem calculate_accuracy_self (l : List α) (h : l ≠ []) : calculate_accuracy l l = 1 := by
  have hlen : l.length ≠ 0 := by simpa [List.length_eq_zero] using h
  unfold calculate_accuracy
  rw [if_neg hlen, zip_self_eq_map, List.countP_map]
  have hp : ((fun p : α × α => decide (p.1 = p.2)) ∘ fun a => (a, a)) = fun _ => true := by
    funext a; simp
  rw [hp]
  rw [show (l.countP fun _ => true) = l.length by simp]
  exact div_self (by exact_mod_cast hlen)

/-- Comparing a label sequence with itself yields attack success rate 0,
also on the empty sequence. -/
theorem calculate_asr_self (l : List α) : calculate_asr l l = 0 := by
  unfold calculate_asr
  by_cases hlen : l.length = 0
  · rw [if_pos hlen]
  · rw [if_neg hlen, zip_self_eq_map, List.countP_map]
    have hp : ((fun p : α × α => decide (p.1 ≠ p.2)) ∘ fun a => (a, a)) = fun _ => false := by
      funext a; simp
    rw [hp]
    simp

/-- A zip of equal-length lists has the common length. -/
theorem zip_length_eq (R P : List α) (hlen : R.length = P.length) :
    (R.zip P).length = R.length := by
  rw [List.length_zip, hlen, min_self]

/-- Matches and mismatches partition the positions of an equal-length zip. -/
theorem countP_match_add_mismatch (R P : List α) (hlen : R.length = P.length) :
    ((R.zip P).countP fun p => decide (p.1 = p.2)) +
      ((R.zip P).countP fun p => decide (p.1 ≠ p.2)) = R.length := by
  have h0 := List.length_eq_countP_add_countP (fun p : α × α => decide (p.1 = p.2)) (R.zip P)
  have hq : (fun p : α × α => decide ¬(decide (p.1 = p.2) = true)) =
      fun p : α × α => decide (p.1 ≠ p.2) := by
    funext p; simp
  rw [hq] at h0
  rw [← h0, zip_length_eq R P hlen]

/-- On nonempty equal-length sequences, accuracy and attack success rate are
complementary. -/
theorem accuracy_add_asr (R P : List α) (hlen : R.length = P.length) (hne : R ≠ []) :
    calculate_accuracy R P + calculate_asr R P = 1 := by
  have hn : R.length ≠ 0 := by simpa [List.length_eq_zero] using hne
  unfold calculate_accuracy calculate_asr
  rw [if_neg hn, if_neg hn, div_add_div_same]
  rw [show ((((R.zip P).countP fun p => decide (p.1 = p.2)) : ℚ) +
      (((R.zip P).countP fun p => decide (p.1 ≠ p.2)) : ℚ)) = (R.length : ℚ) by
    exact_mod_cast congrArg (Nat.cast : ℕ → ℚ) (countP_match_add_mismatch R P hlen)]
  exact div_self (by exact_mod_cast hn)

/-- Accuracy always lies in the unit interval. -/
theorem calculate_accuracy_bounds (R P : List α) :
    0 ≤ calculate_accuracy R P ∧ calculate_accuracy R P ≤ 1 := by
  unfold calculate_accuracy
  by_cases hlen : R.length = 0
  · rw [if_pos hlen]; norm_num
  · rw [if_neg hlen]
    have hpos : (0 : ℚ) < (R.length : ℚ) := by
      exact_mod_cast Nat.pos_of_ne_zero hlen
    constructor
    · exact div_nonneg (by positivity) (le_of_lt hpos)
    · rw [div_le_one hpos]
      have hle : ((R.zip P).countP fun p => decide (p.1 = p.2)) ≤ R.length :=
        le_trans (List.countP_le_length _)
          (by rw [List.length_zip]; exact min_le_left _ _)
      exact_mod_cast hle

/-- Attack success rate always lies in the unit interval. -/
theorem calculate_asr_bounds (R P : List α) :
    0 ≤ calculate_asr R P ∧ calculate_asr R P ≤ 1 := by
  unfold calculate_asr
  by_cases hlen : R.length = 0
  · rw [if_pos hlen]; norm_num
  · rw [if_neg hlen]
    have hpos : (0 : ℚ) < (R.length : ℚ) := by
      exact_mod_cast Nat.pos_of_ne_zero hlen
    constructor
    · exact div_nonneg (by positivity) (le_of_lt hpos)
    · rw [div_le_one hpos]
      have hle : ((R.zip P).countP fun p => decide (p.1 ≠ p.2)) ≤ R.length :=
        le_trans (List.countP_le_length _)
          (by rw [List.length_zip]; exact min_le_left _ _)
      exact_mod_cast hle

/-- Rounding fixes zero. -/
theorem round2_zero : round2 0 = 0 := by
  simp [round2]

/-- A run that hands a record to persistence must have had `status ==
"success"`: the guard on line 36 of `src/main.py` is passed. -/
theorem main_status_of_some
    (builder : String → String → String → Option String → Experiment M T α)
    (lat : Nat → LatCall M T → ℚ) (args : Args) (r : MetricsRecord)
    (calls : List (LatCall M T))
    (h : main builder lat args = (some r, calls)) :
    (builder args.model args.dataset args.attack args.quantization).result.status
      = "success" := by
  by_contra hst
  simp [main, hst] at h

/-- Unfolding of `main` on a successful run: the exact record built on lines
55-66 of `src/main.py` and the exact pair of `measure_latency` calls made on
lines 52-53. -/
theorem main_success_eq
    (builder : String → String → String → Option String → Experiment M T α)
    (lat : Nat → LatCall M T → ℚ) (args : Args) (data : List (Example α))
    (hst : (builder args.model args.dataset args.attack args.quantization).result.status
      = "success")
    (hdata : (builder args.model args.dataset args.attack
        args.quantization).result.adversarial_data = some data) :
    main builder lat args =
      (some
        { model := args.model
          quantization := args.quantization
          attack := args.attack
          accuracy_before :=
            calculate_accuracy (original_labels data) (original_labels data)
          accuracy_after :=
            calculate_accuracy (original_labels data) (perturbed_labels data)
          accuracy_drop :=
            round2 (calculate_accuracy (original_labels data) (original_labels data) -
              calculate_accuracy (original_labels data) (perturbed_labels data))
          attack_success_rate :=
            calculate_asr (original_labels data) (perturbed_labels data)
          latency_before_ms := lat 0
            ⟨(builder args.model args.dataset args.attack args.quantization).model,
              batch_texts data,
              (builder args.model args.dataset args.attack args.quantization).tokenizer⟩
          latency_after_ms := lat 1
            ⟨(builder args.model args.dataset args.attack args.quantization).model,
              batch_texts data,
              (builder args.model args.dataset args.attack args.quantization).tokenizer⟩
          latency_increase_ms :=
            round2 (lat 1
              ⟨(builder args.model args.dataset args.attack args.quantization).model,
                batch_texts data,
                (builder args.model args.dataset args.attack args.quantization).tokenizer⟩ -
              lat 0
              ⟨(builder args.model args.dataset args.attack args.quantization).model,
                batch_texts data,
                (builder args.model args.dataset args.attack args.quantization).tokenizer⟩) },
       [⟨(builder args.model args.dataset args.attack args.quantization).model,
          batch_texts data,
          (builder args.model args.dataset args.attack args.quantization).tokenizer⟩,
        ⟨(builder args.model args.dataset args.attack args.quantization).model,
          batch_texts data,
          (builder args.model args.dataset args.attack args.quantization).tokenizer⟩]) := by
  simp only [main, hst, hdata, ne_eq, not_true_eq_false, if_false]

/-- Claim C1: whenever the experiment result's status is not "success", the
entry point logs and returns: it persists no record and makes no latency
call (output `(none, [])`), and this output is unchanged under an arbitrary
replacement of the result's `adversarial_data` — the data is read only after
`status == "success"` has been verified. -/
theorem failure_branch_exits
    (builder : String → String → String → Option String → Experiment M T α)
    (lat : Nat → LatCall M T → ℚ) (args : Args)
    (h : (builder args.model args.dataset args.attack args.quantization).result.status
      ≠ "success") :
    main builder lat args = (none, []) ∧
    ∀ d : Option (List (Example α)),
      main (fun m ds ak q =>
        { builder m ds ak q with
          result := { status := (builder m ds ak q).result.status
                      adversarial_data := d } }) lat args = (none, []) := by
  constructor
  · simp [main, h]
  · intro d
    simp [main, h]

/-- Witness for C1: a concrete failing run produces no record and no
latency calls. -/
theorem failure_branch_exits_witness :
    main (M := Unit) (T := Unit)
      (fun _ _ _ _ => ⟨(), (), ⟨"failure", (none : Option (List (Example ℕ)))⟩⟩)
      (fun _ _ => 0) ⟨"m", "d", "prompt_injection", none, 50⟩ = (none, []) :=
  (failure_branch_exits
    (fun _ _ _ _ => ⟨(), (), ⟨"failure", (none : Option (List (Example ℕ)))⟩⟩)
    (fun _ _ => 0) ⟨"m", "d", "prompt_injection", none, 50⟩ (by decide)).1

/-- Claim C2 (amended): on a successful run `accuracy_before` is computed as
`calculate_accuracy` of the original-label sequence against itself; it equals
1 whenever `adversarial_data` is nonempty, but 0 (the defined zero-length
value) when `adversarial_data` is empty. -/
theorem accuracy_before_baseline
    (builder : String → String → String → Option String → Experiment M T α)
    (lat : Nat → LatCall M T → ℚ) (args : Args) (r : MetricsRecord)
    (calls : List (LatCall M T)) (data : List (Example α))
    (hmain : main builder lat args = (some r, calls))
    (hdata : (builder args.model args.dataset args.attack
        args.quantization).result.adversarial_data = some data) :
    r.accuracy_before = calculate_accuracy (original_labels data) (original_labels data) ∧
    (data ≠ [] → r.accuracy_before = 1) ∧
    (data = [] → r.accuracy_before = 0) := by
  have hst := main_status_of_some builder lat args r calls hmain
  rw [main_success_eq builder lat args data hst hdata] at hmain
  injection hmain with h1 h2
  injection h1 with h1
  subst h1
  refine ⟨rfl, ?_, ?_⟩
  · intro hne
    exact calculate_accuracy_self (original_labels data)
      (by simpa [original_labels, List.map_eq_nil] using hne)
  · intro hnil
    subst hnil
    rfl

/-- Witness for C2: a concrete one-example successful run has
`accuracy_before = 1`. -/
theorem accuracy_before_baseline_witness :
    calculate_accuracy (original_labels [⟨"a", (0 : ℕ), some 0⟩])
      (original_labels [⟨"a", (0 : ℕ), some 0⟩]) = 1 := by
  have h := accuracy_before_baseline (M := Unit) (T := Unit)
    (fun _ _ _ _ => ⟨(), (), ⟨"success", some [⟨"a", (0 : ℕ), some 0⟩]⟩⟩)
    (fun _ _ => 0) ⟨"m", "d", "backdoor", none, 50⟩ _ _ [⟨"a", (0 : ℕ), some 0⟩]
    (main_success_eq
      (fun _ _ _ _ => ⟨(), (), ⟨"success", some [⟨"a", (0 : ℕ), some 0⟩]⟩⟩)
      (fun _ _ => 0) ⟨"m", "d", "backdoor", none, 50⟩ [⟨"a", (0 : ℕ), some 0⟩] rfl rfl)
    rfl
  exact h.2.1 (by simp)

/-- Counterexample for C2 as stated: a successful run with empty
`adversarial_data` persists a record whose `accuracy_before` is 0, not 1. -/
theorem accuracy_before_empty_run_cex :
    (main (M := Unit) (T := Unit)
        (fun _ _ _ _ => ⟨(), (), ⟨"success", some ([] : List (Example ℕ))⟩⟩)
        (fun _ _ => 0) ⟨"m", "d", "adversarial", none, 50⟩).1 =
      some ⟨"m", none, "adversarial", 0, 0, 0, 0, 0, 0, 0⟩ ∧
    (⟨"m", none, "adversarial", 0, 0, 0, 0, 0, 0, 0⟩ : MetricsRecord).accuracy_before ≠ 1 := by
  have h := main_success_eq (M := Unit) (T := Unit)
    (fun _ _ _ _ => ⟨(), (), ⟨"success", some ([] : List (Example ℕ))⟩⟩)
    (fun _ _ => 0) ⟨"m", "d", "adversarial", none, 50⟩ [] rfl rfl
  constructor
  · rw [h]
    norm_num [calculate_accuracy, calculate_asr, original_labels, round2]
  · norm_num

/-- Claim C7 (amended): on equal-length label sequences, accuracy is the match
count divided by the length and ASR is the mismatch count divided by the
length; both always lie in [0, 1]; the complement identity
`calculate_accuracy R P = 1 - calculate_asr R P` holds whenever the sequences
are nonempty; and on empty inputs both functions return the defined value 0
(where the complement identity does not hold). -/
theorem metrics_algebra (R P : List α) (hlen : R.length = P.length) :
    calculate_accuracy R P =
      (if R.length = 0 then (0 : ℚ)
       else (((R.zip P).countP fun p => decide (p.1 = p.2) : ℕ) : ℚ) / (R.length : ℚ)) ∧
    calculate_asr R P =
      (if R.length = 0 then (0 : ℚ)
       else (((R.zip P).countP fun p => decide (p.1 ≠ p.2) : ℕ) : ℚ) / (R.length : ℚ)) ∧
    0 ≤ calculate_accuracy R P ∧ calculate_accuracy R P ≤ 1 ∧
    0 ≤ calculate_asr R P ∧ calculate_asr R P ≤ 1 ∧
    (R ≠ [] → calculate_accuracy R P = 1 - calculate_asr R P) ∧
    calculate_accuracy ([] : List α) [] = 0 ∧ calculate_asr ([] : List α) [] = 0 := by
  refine ⟨rfl, rfl, (calculate_accuracy_bounds R P).1, (calculate_accuracy_bounds R P).2,
    (calculate_asr_bounds R P).1, (calculate_asr_bounds R P).2, ?_, rfl, rfl⟩
  intro hne
  have h := accuracy_add_asr R P hlen hne
  linarith

/-- Witness for C7: the spec's worked scenario R = [0,1,1,0], P = [0,1,0,0]. -/
theorem metrics_algebra_witness :
    calculate_accuracy [0, 1, 1, 0] [0, 1, 0, 0] = 1 - calculate_asr [0, 1, 1, 0] [0, 1, 0, 0] :=
  ((metrics_algebra [0, 1, 1, 0] [0, 1, 0, 0] rfl).2.2.2.2.2.2.1) (by simp)

/-- Counterexample for C7 as stated: on the (equal-length) empty sequences the
complement identity fails — both metrics are 0, and 0 is not 1 - 0. -/
theorem metrics_complement_empty_cex :
    calculate_accuracy ([] : List ℕ) [] = 0 ∧ calculate_asr ([] : List ℕ) [] = 0 ∧
    calculate_accuracy ([] : List ℕ) [] ≠ 1 - calculate_asr ([] : List ℕ) [] := by
  refine ⟨rfl, rfl, ?_⟩
  norm_num [calculate_accuracy, calculate_asr]

/-- Claim C9: an example whose `perturbed_label` key is absent contributes its
own `label` at its position of the perturbed-label sequence (line 45 of
`src/main.py`), so at that position the original and perturbed sequences
agree — the zipped pair is a positional match for `accuracy_after` and not a
flip for the attack success rate. -/
theorem missing_perturbed_label_defaults (data : List (Example α)) (i : ℕ) (e : Example α)
    (he : data[i]? = some e) (hnone : e.perturbed_label = none) :
    (original_labels data)[i]? = some e.label ∧
    (perturbed_labels data)[i]? = some e.label ∧
    ((original_labels data).zip (perturbed_labels data))[i]? = some (e.label, e.label) := by
  refine ⟨?_, ?_, ?_⟩
  · rw [original_labels, List.getElem?_map, he, Option.map_some']
  · rw [perturbed_labels, List.getElem?_map, he, Option.map_some', hnone, Option.getD_none]
  · rw [original_labels, perturbed_labels, List.zip_map', List.getElem?_map, he,
      Option.map_some', hnone, Option.getD_none]

/-- Witness for C9: a concrete two-example batch whose second example lacks a
perturbed label. -/
theorem missing_perturbed_label_defaults_witness :
    (original_labels [⟨"x", (3 : ℕ), some 4⟩, ⟨"y", 7, none⟩])[1]? = some 7 ∧
    (perturbed_labels [⟨"x", (3 : ℕ), some 4⟩, ⟨"y", 7, none⟩])[1]? = some 7 ∧
    ((original_labels [⟨"x", (3 : ℕ), some 4⟩, ⟨"y", 7, none⟩]).zip
      (perturbed_labels [⟨"x", (3 : ℕ), some 4⟩, ⟨"y", 7, none⟩]))[1]? = some (7, 7) :=
  missing_perturbed_label_defaults [⟨"x", (3 : ℕ), some 4⟩, ⟨"y", 7, none⟩] 1
    ⟨"y", 7, none⟩ rfl rfl

/-- Claim C10: the original- and perturbed-label sequences built by the entry
point both have the length of `adversarial_data` and preserve its positional
order, so the equal-length precondition of the metric evaluators holds by
construction. -/
theorem label_lists_wellformed (data : List (Example α)) :
    (original_labels data).length = data.length ∧
    (perturbed_labels data).length = data.length ∧
    (original_labels data).length = (perturbed_labels data).length ∧
    ∀ i : ℕ, ∀ e : Example α, data[i]? = some e →
      (original_labels data)[i]? = some e.label ∧
      (perturbed_labels data)[i]? = some (e.perturbed_label.getD e.label) := by
  refine ⟨by simp [original_labels], by simp [perturbed_labels],
    by simp [original_labels, perturbed_labels], ?_⟩
  intro i e he
  constructor
  · rw [original_labels, List.getElem?_map, he, Option.map_some']
  · rw [perturbed_labels, List.getElem?_map, he, Option.map_some']

/-- Witness for C10: evaluation on a concrete two-example batch. -/
theorem label_lists_wellformed_witness :
    (original_labels [⟨"x", (3 : ℕ), some 4⟩, ⟨"y", 7, none⟩]).length = 2 ∧
    (perturbed_labels [⟨"x", (3 : ℕ), some 4⟩, ⟨"y", 7, none⟩])[0]? = some 4 := by
  have h := label_lists_wellformed [⟨"x", (3 : ℕ), some 4⟩, ⟨"y", 7, none⟩]
  exact ⟨h.1, (h.2.2.2 0 ⟨"x", (3 : ℕ), some 4⟩ rfl).2⟩

/-- Claim C4: on a successful run the two latency values come from exactly two
`measure_latency` calls whose argument triples are identical — the perturbed
batch's texts with the experiment's model and tokenizer handles (lines 52-53
of `src/main.py`). -/
theorem latency_calls_identical
    (builder : String → String → String → Option String → Experiment M T α)
    (lat : Nat → LatCall M T → ℚ) (args : Args) (r : MetricsRecord)
    (calls : List (LatCall M T)) (data : List (Example α))
    (hmain : main builder lat args = (some r, calls))
    (hdata : (builder args.model args.dataset args.attack
        args.quantization).result.adversarial_data = some data) :
    calls =
      [⟨(builder args.model args.dataset args.attack args.quantization).model,
         batch_texts data,
         (builder args.model args.dataset args.attack args.quantization).tokenizer⟩,
       ⟨(builder args.model args.dataset args.attack args.quantization).model,
         batch_texts data,
         (builder args.model args.dataset args.attack args.quantization).tokenizer⟩] ∧
    r.latency_before_ms = lat 0
      ⟨(builder args.model args.dataset args.attack args.quantization).model,
        batch_texts data,
        (builder args.model args.dataset args.attack args.quantization).tokenizer⟩ ∧
    r.latency_after_ms = lat 1
      ⟨(builder args.model args.dataset args.attack args.quantization).model,
        batch_texts data,
        (builder args.model args.dataset args.attack args.quantization).tokenizer⟩ := by
  have hst := main_status_of_some builder lat args r calls hmain
  rw [main_success_eq builder lat args data hst hdata] at hmain
  injection hmain with h1 h2
  injection h1 with h1
  subst h1
  subst h2
  exact ⟨rfl, rfl, rfl⟩

/-- Witness for C4: on a concrete successful run the trace holds two calls
with the same batch, model handle and tokenizer handle. -/
theorem latency_calls_identical_witness :
    (main (M := Unit) (T := Unit)
      (fun _ _ _ _ => ⟨(), (), ⟨"success", some [⟨"t1", (0 : ℕ), some 1⟩]⟩⟩)
      (fun n _ => (n : ℚ)) ⟨"m", "d", "gradient_based", none, 50⟩).2 =
      [⟨(), ["t1"], ()⟩, ⟨(), ["t1"], ()⟩] := by
  have h := latency_calls_identical (M := Unit) (T := Unit)
    (fun _ _ _ _ => ⟨(), (), ⟨"success", some [⟨"t1", (0 : ℕ), some 1⟩]⟩⟩)
    (fun n _ => (n : ℚ)) ⟨"m", "d", "gradient_based", none, 50⟩ _ _ [⟨"t1", (0 : ℕ), some 1⟩]
    (main_success_eq
      (fun _ _ _ _ => ⟨(), (), ⟨"success", some [⟨"t1", (0 : ℕ), some 1⟩]⟩⟩)
      (fun n _ => (n : ℚ)) ⟨"m", "d", "gradient_based", none, 50⟩
      [⟨"t1", (0 : ℕ), some 1⟩] rfl rfl) rfl
  exact h.1

/-- Claim C5: the record a successful run hands to persistence consists of
exactly the ten fields of `MetricsRecord`, with `model`, `quantization` and
`attack` copied unchanged from the configuration values received by the
entry point. -/
theorem final_record_fields
    (builder : String → String → String → Option String → Experiment M T α)
    (lat : Nat → LatCall M T → ℚ) (args : Args) (r : MetricsRecord)
    (calls : List (LatCall M T)) (data : List (Example α))
    (hmain : main builder lat args = (some r, calls))
    (hdata : (builder args.model args.dataset args.attack
        args.quantization).result.adversarial_data = some data) :
    r = { model := args.model
          quantization := args.quantization
          attack := args.attack
          accuracy_before :=
            calculate_accuracy (original_labels data) (original_labels data)
          accuracy_after :=
            calculate_accuracy (original_labels data) (perturbed_labels data)
          accuracy_drop :=
            round2 (calculate_accuracy (original_labels data) (original_labels data) -
              calculate_accuracy (original_labels data) (perturbed_labels data))
          attack_success_rate :=
            calculate_asr (original_labels data) (perturbed_labels data)
          latency_before_ms := lat 0
            ⟨(builder args.model args.dataset args.attack args.quantization).model,
              batch_texts data,
              (builder args.model args.dataset args.attack args.quantization).tokenizer⟩
          latency_after_ms := lat 1
            ⟨(builder args.model args.dataset args.attack args.quantization).model,
              batch_texts data,
              (builder args.model args.dataset args.attack args.quantization).tokenizer⟩
          latency_increase_ms :=
            round2 (lat 1
              ⟨(builder args.model args.dataset args.attack args.quantization).model,
                batch_texts data,
                (builder args.model args.dataset args.attack args.quantization).tokenizer⟩ -
              lat 0
              ⟨(builder args.model args.dataset args.attack args.quantization).model,
                batch_texts data,
                (builder args.model args.dataset args.attack args.quantization).tokenizer⟩) } := by
  have hst := main_status_of_some builder lat args r calls hmain
  rw [main_success_eq builder lat args data hst hdata] at hmain
  injection hmain with h1 h2
  injection h1 with h1
  exact h1.symm

/-- Witness for C5: the configuration fields of a concrete run's record. -/
theorem final_record_fields_witness :
    (⟨"mw", some "GPTQ", "backdoor",
      calculate_accuracy (original_labels [(⟨"a", (0 : ℕ), some 1⟩ : Example ℕ)])
        (original_labels [(⟨"a", (0 : ℕ), some 1⟩ : Example ℕ)]),
      calculate_accuracy (original_labels [(⟨"a", (0 : ℕ), some 1⟩ : Example ℕ)])
        (perturbed_labels [(⟨"a", (0 : ℕ), some 1⟩ : Example ℕ)]),
      round2 (calculate_accuracy (original_labels [(⟨"a", (0 : ℕ), some 1⟩ : Example ℕ)])
          (original_labels [(⟨"a", (0 : ℕ), some 1⟩ : Example ℕ)]) -
        calculate_accuracy (original_labels [(⟨"a", (0 : ℕ), some 1⟩ : Example ℕ)])
          (perturbed_labels [(⟨"a", (0 : ℕ), some 1⟩ : Example ℕ)])),
      calculate_asr (original_labels [(⟨"a", (0 : ℕ), some 1⟩ : Example ℕ)])
        (perturbed_labels [(⟨"a", (0 : ℕ), some 1⟩ : Example ℕ)]),
      7, 7, round2 (7 - 7)⟩ : MetricsRecord) =
      { model := "mw", quantization := some "GPTQ", attack := "backdoor",
        accuracy_before :=
          calculate_accuracy (original_labels [(⟨"a", (0 : ℕ), some 1⟩ : Example ℕ)])
            (original_labels [(⟨"a", (0 : ℕ), some 1⟩ : Example ℕ)]),
        accuracy_after :=
          calculate_accuracy (original_labels [(⟨"a", (0 : ℕ), some 1⟩ : Example ℕ)])
            (perturbed_labels [(⟨"a", (0 : ℕ), some 1⟩ : Example ℕ)]),
        accuracy_drop :=
          round2 (calculate_accuracy (original_labels [(⟨"a", (0 : ℕ), some 1⟩ : Example ℕ)])
              (original_labels [(⟨"a", (0 : ℕ), some 1⟩ : Example ℕ)]) -
            calculate_accuracy (original_labels [(⟨"a", (0 : ℕ), some 1⟩ : Example ℕ)])
              (perturbed_labels [(⟨"a", (0 : ℕ), some 1⟩ : Example ℕ)])),
        attack_success_rate :=
          calculate_asr (original_labels [(⟨"a", (0 : ℕ), some 1⟩ : Example ℕ)])
            (perturbed_labels [(⟨"a", (0 : ℕ), some 1⟩ : Example ℕ)]),
        latency_before_ms := 7, latency_after_ms := 7,
        latency_increase_ms := round2 (7 - 7) } :=
  final_record_fields (M := Unit) (T := Unit)
    (fun _ _ _ _ => ⟨(), (), ⟨"success", some [⟨"a", (0 : ℕ), some 1⟩]⟩⟩)
    (fun _ _ => 7) ⟨"mw", "d", "backdoor", some "GPTQ", 50⟩ _ _
    [⟨"a", (0 : ℕ), some 1⟩]
    (main_success_eq
      (fun _ _ _ _ => ⟨(), (), ⟨"success", some [⟨"a", (0 : ℕ), some 1⟩]⟩⟩)
      (fun _ _ => 7) ⟨"mw", "d", "backdoor", some "GPTQ", 50⟩
      [⟨"a", (0 : ℕ), some 1⟩] rfl rfl) rfl

/-- Claim C6: in the persisted record, `accuracy_drop` is the rounded
difference of the two accuracies and `latency_increase_ms` the rounded
difference of the two latencies; every other field is the raw, unrounded
output of its evaluator or of the configuration. -/
theorem derived_fields_rounded
    (builder : String → String → String → Option String → Experiment M T α)
    (lat : Nat → LatCall M T → ℚ) (args : Args) (r : MetricsRecord)
    (calls : List (LatCall M T)) (data : List (Example α))
    (hmain : main builder lat args = (some r, calls))
    (hdata : (builder args.model args.dataset args.attack
        args.quantization).result.adversarial_data = some data) :
    r.accuracy_drop = round2 (r.accuracy_before - r.accuracy_after) ∧
    r.latency_increase_ms = round2 (r.latency_after_ms - r.latency_before_ms) ∧
    r.accuracy_before = calculate_accuracy (original_labels data) (original_labels data) ∧
    r.accuracy_after = calculate_accuracy (original_labels data) (perturbed_labels data) ∧
    r.attack_success_rate = calculate_asr (original_labels data) (perturbed_labels data) ∧
    r.latency_before_ms = lat 0
      ⟨(builder args.model args.dataset args.attack args.quantization).model,
        batch_texts data,
        (builder args.model args.dataset args.attack args.quantization).tokenizer⟩ ∧
    r.latency_after_ms = lat 1
      ⟨(builder args.model args.dataset args.attack args.quantization).model,
        batch_texts data,
        (builder args.model args.dataset args.attack args.quantization).tokenizer⟩ := by
  have hst := main_status_of_some builder lat args r calls hmain
  rw [main_success_eq builder lat args data hst hdata] at hmain
  injection hmain with h1 h2
  injection h1 with h1
  subst h1
  exact ⟨rfl, rfl, rfl, rfl, rfl, rfl, rfl⟩

/-- Witness for C6: the rounding identities on a concrete run's record. -/
theorem derived_fields_rounded_witness :
    round2 (calculate_accuracy (original_labels [(⟨"a", (0 : ℕ), some 1⟩ : Example ℕ)])
        (original_labels [(⟨"a", (0 : ℕ), some 1⟩ : Example ℕ)]) -
      calculate_accuracy (original_labels [(⟨"a", (0 : ℕ), some 1⟩ : Example ℕ)])
        (perturbed_labels [(⟨"a", (0 : ℕ), some 1⟩ : Example ℕ)])) =
      round2 (calculate_accuracy (original_labels [(⟨"a", (0 : ℕ), some 1⟩ : Example ℕ)])
          (original_labels [(⟨"a", (0 : ℕ), some 1⟩ : Example ℕ)]) -
        calculate_accuracy (original_labels [(⟨"a", (0 : ℕ), some 1⟩ : Example ℕ)])
          (perturbed_labels [(⟨"a", (0 : ℕ), some 1⟩ : Example ℕ)])) :=
  (derived_fields_rounded (M := Unit) (T := Unit)
    (fun _ _ _ _ => ⟨(), (), ⟨"success", some [⟨"a", (0 : ℕ), some 1⟩]⟩⟩)
    (fun _ _ => 7) ⟨"mw", "d", "backdoor", some "GPTQ", 50⟩ _ _
    [⟨"a", (0 : ℕ), some 1⟩]
    (main_success_eq
      (fun _ _ _ _ => ⟨(), (), ⟨"success", some [⟨"a", (0 : ℕ), some 1⟩]⟩⟩)
      (fun _ _ => 7) ⟨"mw", "d", "backdoor", some "GPTQ", 50⟩
      [⟨"a", (0 : ℕ), some 1⟩] rfl rfl) rfl).1

/-- Claim C8: when no example's perturbed label differs from its label (a
no-op attack), the persisted record has attack success rate 0 and accuracy
drop 0. -/
theorem noop_attack_zero_metrics
    (builder : String → String → String → Option String → Experiment M T α)
    (lat : Nat → LatCall M T → ℚ) (args : Args) (r : MetricsRecord)
    (calls : List (LatCall M T)) (data : List (Example α))
    (hmain : main builder lat args = (some r, calls))
    (hdata : (builder args.model args.dataset args.attack
        args.quantization).result.adversarial_data = some data)
    (hnoop : ∀ e ∈ data, e.perturbed_label.getD e.label = e.label) :
    r.attack_success_rate = 0 ∧ r.accuracy_drop = 0 := by
  have hst := main_status_of_some builder lat args r calls hmain
  rw [main_success_eq builder lat args data hst hdata] at hmain
  injection hmain with h1 h2
  injection h1 with h1
  subst h1
  have hpert : perturbed_labels data = original_labels data := by
    unfold perturbed_labels original_labels
    exact List.map_congr_left hnoop
  constructor
  · show calculate_asr (original_labels data) (perturbed_labels data) = 0
    rw [hpert]
    exact calculate_asr_self _
  · show round2 (calculate_accuracy (original_labels data) (original_labels data) -
      calculate_accuracy (original_labels data) (perturbed_labels data)) = 0
    rw [hpert, sub_self, round2_zero]

/-- Witness for C8: a concrete no-op run (one unchanged perturbed label, one
absent perturbed label). -/
theorem noop_attack_zero_metrics_witness :
    calculate_asr (original_labels [⟨"a", (0 : ℕ), some 0⟩, ⟨"b", 1, none⟩])
      (perturbed_labels [⟨"a", (0 : ℕ), some 0⟩, ⟨"b", 1, none⟩]) = 0 ∧
    round2 (calculate_accuracy (original_labels [⟨"a", (0 : ℕ), some 0⟩, ⟨"b", 1, none⟩])
        (original_labels [⟨"a", (0 : ℕ), some 0⟩, ⟨"b", 1, none⟩]) -
      calculate_accuracy (original_labels [⟨"a", (0 : ℕ), some 0⟩, ⟨"b", 1, none⟩])
        (perturbed_labels [⟨"a", (0 : ℕ), some 0⟩, ⟨"b", 1, none⟩])) = 0 :=
  noop_attack_zero_metrics (M := Unit) (T := Unit)
    (fun _ _ _ _ => ⟨(), (), ⟨"success", some [⟨"a", (0 : ℕ), some 0⟩, ⟨"b", 1, none⟩]⟩⟩)
    (fun _ _ => 5) ⟨"m", "d", "adversarial", none, 50⟩ _ _
    [⟨"a", (0 : ℕ), some 0⟩, ⟨"b", 1, none⟩]
    (main_success_eq
      (fun _ _ _ _ => ⟨(), (), ⟨"success", some [⟨"a", (0 : ℕ), some 0⟩, ⟨"b", 1, none⟩]⟩⟩)
      (fun _ _ => 5) ⟨"m", "d", "adversarial", none, 50⟩
      [⟨"a", (0 : ℕ), some 0⟩, ⟨"b", 1, none⟩] rfl rfl) rfl (by decide)

/-- Claim C3 (code bug in `src/main.py`): the entry point parses
`--num_samples` but never passes it to `ExperimentBuilder` (line 33), so the
run's behaviour is entirely independent of `num_samples` and the configured
sample count cannot bound `len(adversarial_data)`: a builder whose sampler
yields two examples together with `--num_samples 1` attacks and evaluates
two examples. -/
theorem num_samples_ignored :
    (∀ {γ M T : Type} [DecidableEq γ]
        (builder : String → String → String → Option String → Experiment M T γ)
        (lat : Nat → LatCall M T → ℚ) (args : Args) (n : Int),
        main builder lat args =
          main builder lat
            { model := args.model, dataset := args.dataset, attack := args.attack,
              quantization := args.quantization, num_samples := n }) ∧
    (main (M := Unit) (T := Unit)
        (fun _ _ _ _ =>
          ⟨(), (), ⟨"success", some [⟨"a", (0 : ℕ), none⟩, ⟨"b", 1, none⟩]⟩⟩)
        (fun _ _ => 0) ⟨"m", "d", "prompt_injection", none, 1⟩).2.map
        (fun c => c.texts.length) = [2, 2] ∧
    ¬((2 : Int) ≤ (⟨"m", "d", "prompt_injection", none, 1⟩ : Args).num_samples) := by
  refine ⟨?_, ?_, ?_⟩
  · intro γ M T inst builder lat args n
    rfl
  · have h := main_success_eq (M := Unit) (T := Unit)
      (fun _ _ _ _ =>
        ⟨(), (), ⟨"success", some [⟨"a", (0 : ℕ), none⟩, ⟨"b", 1, none⟩]⟩⟩)
      (fun _ _ => 0) ⟨"m", "d", "prompt_injection", none, 1⟩
      [⟨"a", (0 : ℕ), none⟩, ⟨"b", 1, none⟩] rfl rfl
    rw [h]
    rfl
  · decide

end LLMVuln
